import Mathlib

/-!
Verification of the exam-simulator core of the Patente repository.

The development shallowly embeds the page-local business logic of
src/pages/ExamSimulatorPage.tsx (question sampling, phase machine, answer
recording, scoring and pass/fail policy) and the bilingual content
resolution helper of the LanguageProvider module. All definitions are
translated from the TypeScript source; theorems state the specified
properties over them.
-/

namespace Patente

/-- Difficulty tag of a question (three ordered levels). The Question record
lives in the excluded db/database module; its shape is modelled from the
spec data model (identifier, bilingual prompt, boolean correct-answer flag,
difficulty, optional image and explanation), keeping exactly the fields the
page reads. -/
inductive Difficulty
  | easy
  | medium
  | hard
deriving DecidableEq

/-- Question record as consumed by ExamSimulatorPage (fields q.id,
q.questionAr, q.questionIt, q.isTrue, q.difficulty, q.image,
q.explanationAr). -/
structure Question where
  id : Nat
  questionAr : String
  questionIt : String
  isTrue : Bool
  difficulty : Difficulty
  image : Option String
  explanationAr : Option String
deriving DecidableEq

/-! ## Content resolution (LanguageProvider) -/

/-- UI display language: export type UILanguage = "ar" | "it". -/
inductive UILanguage
  | ar
  | it
deriving DecidableEq

/-- Content-mode setting: export type ContentMode = "ar" | "it" | "both". -/
inductive ContentMode
  | ar
  | it
  | both
deriving DecidableEq

/-- One rendered text block: interface ContentBlock with text, lang,
secondary. -/
structure ContentBlock where
  text : String
  lang : UILanguage
  secondary : Bool
deriving DecidableEq

/-- resolveContent of the LanguageProvider (lines 150-166 of the source):
first the two fixed content modes return a single non-secondary block in
that language, then mode both orders the two blocks by the UI language. -/
def resolveContent (uiLang : UILanguage) (contentMode : ContentMode)
    (ar it : String) : List ContentBlock :=
  if contentMode = ContentMode.ar then
    [{ text := ar, lang := UILanguage.ar, secondary := false }]
  else if contentMode = ContentMode.it then
    [{ text := it, lang := UILanguage.it, secondary := false }]
  else if uiLang = UILanguage.it then
    [{ text := it, lang := UILanguage.it, secondary := false },
     { text := ar, lang := UILanguage.ar, secondary := true }]
  else
    [{ text := ar, lang := UILanguage.ar, secondary := false },
     { text := it, lang := UILanguage.it, secondary := true }]

/-- C4: for every pair of the 2 UI languages and 3 content modes,
resolveContent deterministically returns exactly the documented output: a
fixed-language mode yields one block in that language marked non-secondary,
and mode both yields two blocks with the block matching the UI language
first (non-secondary) and the other language second (secondary). -/
theorem C4_resolveContent_matrix : ∀ a i : String,
    resolveContent UILanguage.it ContentMode.both a i =
      [{ text := i, lang := UILanguage.it, secondary := false },
       { text := a, lang := UILanguage.ar, secondary := true }]
  ∧ resolveContent UILanguage.it ContentMode.it a i =
      [{ text := i, lang := UILanguage.it, secondary := false }]
  ∧ resolveContent UILanguage.it ContentMode.ar a i =
      [{ text := a, lang := UILanguage.ar, secondary := false }]
  ∧ resolveContent UILanguage.ar ContentMode.both a i =
      [{ text := a, lang := UILanguage.ar, secondary := false },
       { text := i, lang := UILanguage.it, secondary := true }]
  ∧ resolveContent UILanguage.ar ContentMode.ar a i =
      [{ text := a, lang := UILanguage.ar, secondary := false }]
  ∧ resolveContent UILanguage.ar ContentMode.it a i =
      [{ text := i, lang := UILanguage.it, secondary := false }] := by
  intro a i
  refine ⟨rfl, rfl, rfl, rfl, rfl, rfl⟩

/-! ## Answer map and scoring (ExamSimulatorPage) -/

/-- Exam constants of the page: EXAM_QUESTIONS = 30, EXAM_TIME = 30 * 60,
MAX_ERRORS = 3. -/
def EXAM_QUESTIONS : Nat := 30

def EXAM_TIME : Nat := 30 * 60

def MAX_ERRORS : Nat := 3

/-- The answers state, a JS record from question position to the recorded
boolean answer. Its entries are the pairs Object.entries would list; a
position with no entry is unanswered. -/
abbrev AnswerMap := List (Nat × Bool)

/-- Reading answers[i]: the recorded boolean, or none when position i has no
entry. -/
def ansLookup (ans : AnswerMap) (i : Nat) : Option Bool :=
  List.lookup i ans

/-- The record update of handleAnswer, prev mapped to a copy of prev with
key i bound to val: one entry per key, the new value replacing any old
one. -/
def setAnswer (i : Nat) (v : Bool) (ans : AnswerMap) : AnswerMap :=
  (i, v) :: ans.filter (fun p => p.1 ≠ i)

/-- One element of the answeredList built by finishExam: questionId,
userAnswer (answers[i] ?? false) and correct (answers[i] === q.isTrue). -/
structure AnswerEntry where
  questionId : Nat
  userAnswer : Bool
  correct : Bool
deriving DecidableEq

/-- finishExam lines 68-72: examQuestions.map((q, i) => ({ questionId:
q.id, userAnswer: answers[i] ?? false, correct: answers[i] === q.isTrue })).
An unanswered position gives userAnswer false and correct false, since
undefined strictly equals no boolean. -/
def answeredList (qs : List Question) (ans : AnswerMap) : List AnswerEntry :=
  qs.enum.map (fun p =>
    { questionId := p.2.id,
      userAnswer := (ansLookup ans p.1).getD false,
      correct := decide (ansLookup ans p.1 = some p.2.isTrue) })

/-- Math.round((correctCount / total) * 100) of finishExam line 74 and of
the result phase line 160. For total > 0 the argument is the nonnegative
rational 100c/total and Math.round x = floor (x + 1/2), which over the
naturals is (200c + total) / (2 total) with floor division (theorem
score_eq_floor below). -/
def score (correctCount total : Nat) : Nat :=
  (200 * correctCount + total) / (2 * total)

/-- Persisted record handed to saveQuizResult (lines 75-80). -/
structure QuizResult where
  topicId : String
  lessonId : String
  score : Nat
  totalQuestions : Nat
  correctAnswers : Nat
  wrongAnswers : Nat
  timeSpent : Nat
  answers : List AnswerEntry
deriving DecidableEq

/-- The QuizResult finishExam builds and persists: correctCount is the
number of answeredList entries with correct = true, score as above,
wrongAnswers = total - correctCount, timeSpent the wall-clock delta. -/
def mkQuizResult (qs : List Question) (ans : AnswerMap)
    (startTime now : Nat) : QuizResult :=
  { topicId := "exam-simulator"
    lessonId := ""
    score := score ((answeredList qs ans).filter (fun a => a.correct)).length qs.length
    totalQuestions := qs.length
    correctAnswers := ((answeredList qs ans).filter (fun a => a.correct)).length
    wrongAnswers := qs.length - ((answeredList qs ans).filter (fun a => a.correct)).length
    timeSpent := now - startTime
    answers := answeredList qs ans }

/-! ## Result phase and review phase computations -/

/-- The correct flags of the results array the result phase builds (lines
153-155): for each position, answers[i] === q.isTrue. -/
def resultsCorrect (qs : List Question) (ans : AnswerMap) : List Bool :=
  qs.enum.map (fun p => decide (ansLookup ans p.1 = some p.2.isTrue))

/-- correctCount of the result phase (line 156). -/
def resultCorrectCount (qs : List Question) (ans : AnswerMap) : Nat :=
  ((resultsCorrect qs ans).filter (fun b => b)).length

/-- errors of the result phase (line 157): results.filter(r =>
!r.correct).length, counting answered-wrong and unanswered positions
alike. -/
def resultErrors (qs : List Question) (ans : AnswerMap) : Nat :=
  ((resultsCorrect qs ans).filter (fun b => !b)).length

/-- passed of the result phase (line 159): errors <= MAX_ERRORS. -/
def examPassed (qs : List Question) (ans : AnswerMap) : Bool :=
  decide (resultErrors qs ans ≤ MAX_ERRORS)

/-- score shown by the result phase (line 160). -/
def examScore (qs : List Question) (ans : AnswerMap) : Nat :=
  score (resultCorrectCount qs ans) qs.length

/-- totalErrors of the review phase (lines 234-237):
Object.entries(answers) filtered by (q exists and a !== q.isTrue). Only
positions present in the answers record are inspected, so an unanswered
question contributes nothing here. -/
def reviewTotalErrors (qs : List Question) (ans : AnswerMap) : Nat :=
  (ans.filter (fun p =>
    match qs.get? p.1 with
    | some q => p.2 != q.isTrue
    | none => false)).length

/-- Verdict label of the review header (lines 246-252): totalErrors <=
MAX_ERRORS shows the pass style and text. -/
def reviewShowsPass (qs : List Question) (ans : AnswerMap) : Bool :=
  decide (reviewTotalErrors qs ans ≤ MAX_ERRORS)

/-! ## Helper lemmas -/

/-- Length of a filter over a map, pushed to the underlying list. -/
theorem length_filter_map_eq {α β : Type} (f : α → β) (p : β → Bool) :
    ∀ l : List α, ((l.map f).filter p).length = (l.filter (fun a => p (f a))).length := by
  intro l
  induction l with
  | nil => rfl
  | cons a t ih =>
      by_cases h : p (f a) = true
      · simp [List.filter_cons, h, ih]
      · simp [List.filter_cons, h, ih]

/-- The floor-division embedding of Math.round agrees with the rational
floor of 100c/T + 1/2 whenever T is positive. -/
theorem score_eq_floor (c T : Nat) (hT : 0 < T) :
    score c T = ⌊(100 * (c : ℚ)) / (T : ℚ) + 1 / 2⌋₊ := by
  have hT0 : (T : ℚ) ≠ 0 := Nat.cast_ne_zero.mpr hT.ne'
  have hkey : (100 * (c : ℚ)) / (T : ℚ) + 1 / 2
      = ((200 * c + T : ℕ) : ℚ) / ((2 * T : ℕ) : ℚ) := by
    push_cast
    field_simp
    ring
  rw [hkey, Nat.floor_div_nat]
  rfl

/-! ## Concrete sessions used as witnesses and failing inputs -/

/-- Question with the given id and correct-answer flag and empty optional
content. -/
def mkQ (n : Nat) (b : Bool) : Question :=
  { id := n, questionAr := "", questionIt := "", isTrue := b,
    difficulty := Difficulty.easy, image := none, explanationAr := none }

/-- A 30-question session whose questions are all true-statements. -/
def qs30 : List Question := (List.range 30).map (fun n => mkQ n true)

/-- Answers for qs30 with the first 26 positions answered correctly and the
last 4 unanswered. -/
def ans26 : AnswerMap := (List.range 26).map (fun n => (n, true))

/-- Answers for qs30 with 27 correct and 3 answered-wrong positions. -/
def ansA : AnswerMap := (List.range 30).map (fun n => (n, decide (n < 27)))

/-- A 5-question session whose questions are all true-statements. -/
def qs5 : List Question := (List.range 5).map (fun n => mkQ n true)

/-- Answers for qs5 with 2 correct and 3 answered-wrong positions. -/
def ansB : AnswerMap := (List.range 5).map (fun n => (n, decide (n < 2)))

/-! ## C1: scoring of finishExam -/

/-- C1: for a session of T >= 1 questions and any answer map, finishExam
derives correctCount as the number of positions whose recorded answer
equals the correct-answer flag (an unanswered position never matches),
score = round(100 * correctCount / T) (stated as the rational floor of
100c/T + 1/2), and wrongAnswers = T - correctCount, so unanswered questions
count as errors. -/
theorem C1_finish_scoring : ∀ (qs : List Question) (ans : AnswerMap) (st now : Nat),
    1 ≤ qs.length →
    (mkQuizResult qs ans st now).correctAnswers
      = qs.enum.countP (fun p => decide (ansLookup ans p.1 = some p.2.isTrue))
  ∧ (mkQuizResult qs ans st now).score
      = ⌊(100 * ((mkQuizResult qs ans st now).correctAnswers : ℚ)) / (qs.length : ℚ) + 1 / 2⌋₊
  ∧ (mkQuizResult qs ans st now).wrongAnswers
      = qs.length - (mkQuizResult qs ans st now).correctAnswers := by
  intro qs ans st now h
  have hc : (mkQuizResult qs ans st now).correctAnswers
      = qs.enum.countP (fun p => decide (ansLookup ans p.1 = some p.2.isTrue)) := by
    show ((answeredList qs ans).filter (fun a => a.correct)).length = _
    rw [answeredList, length_filter_map_eq, List.countP_eq_length_filter]
  refine ⟨hc, ?_, rfl⟩
  show score ((answeredList qs ans).filter (fun a => a.correct)).length qs.length = _
  rw [score_eq_floor _ _ h]
  rfl

/-- Witness for C1 at the session of the spec example: 26 answered-correct,
0 answered-wrong, 4 unanswered out of 30 gives correctCount 26 and
wrongAnswers 4. -/
theorem C1_finish_scoring_witness :
    ((mkQuizResult qs30 ans26 0 1700).correctAnswers = 26
      ∧ (mkQuizResult qs30 ans26 0 1700).wrongAnswers = 4)
  ∧ (mkQuizResult qs30 ans26 0 1700).wrongAnswers
      = qs30.length - (mkQuizResult qs30 ans26 0 1700).correctAnswers :=
  ⟨by decide, (C1_finish_scoring qs30 ans26 0 1700 (by decide)).2.2⟩

/-! ## C2: pass/fail policy -/

/-- Error count as the spec words it: positions answered incorrectly or
left unanswered. -/
def specErrors (qs : List Question) (ans : AnswerMap) : Nat :=
  qs.enum.countP (fun p =>
    match ansLookup ans p.1 with
    | none => true
    | some a => a != p.2.isTrue)

/-- The result-phase error count equals the count of positions answered
incorrectly or left unanswered. -/
theorem resultErrors_eq_specErrors (qs : List Question) (ans : AnswerMap) :
    resultErrors qs ans = specErrors qs ans := by
  rw [resultErrors, resultsCorrect, length_filter_map_eq, specErrors,
    List.countP_eq_length_filter]
  refine congrArg List.length (List.filter_congr ?_)
  intro p hp
  cases hl : ansLookup ans p.1 with
  | none => simp [hl]
  | some a => cases a <;> cases hb : p.2.isTrue <;> simp [hl, hb]

/-- C2: the verdict is pass exactly when the count of questions answered
incorrectly or left unanswered is at most 3, and it depends on nothing but
that error count (two sessions with the same error count get the same
verdict, whatever their scores). -/
theorem C2_pass_threshold : ∀ (qs : List Question) (ans : AnswerMap),
    (examPassed qs ans = true ↔ specErrors qs ans ≤ MAX_ERRORS)
  ∧ (∀ (qs2 : List Question) (ans2 : AnswerMap),
      resultErrors qs ans = resultErrors qs2 ans2 →
      examPassed qs ans = examPassed qs2 ans2) := by
  intro qs ans
  constructor
  · rw [examPassed, resultErrors_eq_specErrors]
    exact decide_eq_true_iff
  · intro qs2 ans2 he
    rw [examPassed, examPassed, he]

/-- Witness for C2: a 30-question session with 3 answered-wrong (score 90)
and a 5-question session with 3 answered-wrong (score 40) get the same
verdict, pass; the session with 4 errors (all unanswered) fails. -/
theorem C2_pass_threshold_witness :
    examPassed qs30 ansA = examPassed qs5 ansB
  ∧ examScore qs30 ansA = 90
  ∧ examScore qs5 ansB = 40
  ∧ examPassed qs30 ansA = true
  ∧ examPassed qs30 ans26 = false :=
  ⟨(C2_pass_threshold qs30 ansA).2 qs5 ansB (by decide),
   by decide, by decide, by decide, by decide⟩

/-! ## C10: the persisted answer list flattens unanswered to false -/

/-- Question id 5 whose statement is true. -/
def qTrueQ : Question := mkQ 5 true

/-- Question id 7 whose statement is false. -/
def qFalseQ : Question := mkQ 7 false

/-- C10: every persisted entry carries a boolean userAnswer; an unanswered
position is recorded with userAnswer false while correct is computed from
the original unanswered state, hence false. For the question whose flag is
false, the persisted entry has userAnswer equal to that flag yet correct
false; and an unanswered position is persisted identically to an
answered-false position on a true-flag question, so the record does not
preserve the distinction. -/
theorem C10_persisted_unanswered :
    (∀ (qs : List Question) (ans : AnswerMap) (p : Nat × Question),
      p ∈ qs.enum → ansLookup ans p.1 = none →
      ({ questionId := p.2.id, userAnswer := false, correct := false } : AnswerEntry)
        ∈ answeredList qs ans)
  ∧ answeredList [qFalseQ] []
      = [{ questionId := 7, userAnswer := qFalseQ.isTrue, correct := false }]
  ∧ answeredList [qTrueQ] [] = answeredList [qTrueQ] [(0, false)] := by
  refine ⟨?_, by decide, by decide⟩
  intro qs ans p hp hnone
  rw [answeredList]
  refine List.mem_map.mpr ⟨p, hp, ?_⟩
  show AnswerEntry.mk p.2.id ((ansLookup ans p.1).getD false)
      (decide (ansLookup ans p.1 = some p.2.isTrue))
    = AnswerEntry.mk p.2.id false false
  rw [hnone]
  rfl

/-! ## Exam session state machine

The page state (lines 14-20) and its mutators, with the persistence
collaborator modelled as a log of submitted QuizResults in the state, per
the spec treatment of persistence as an atomic boundary call. -/

/-- Session phase (line 17). -/
inductive Phase
  | intro
  | exam
  | review
  | result
deriving DecidableEq

/-- The page state: examQuestions, currentIndex, answers, phase, startTime,
elapsed, showGrid, plus the log of results handed to saveQuizResult. -/
structure ExamState where
  examQuestions : List Question
  currentIndex : Nat
  answers : AnswerMap
  phase : Phase
  startTime : Nat
  elapsed : Nat
  showGrid : Bool
  saved : List QuizResult
deriving DecidableEq

/-- handleAnswer (lines 59-61): records or overwrites the answer at the
current cursor. -/
def handleAnswer (v : Bool) (s : ExamState) : ExamState :=
  { s with answers := setAnswer s.currentIndex v s.answers }

/-- goToQuestion (line 63): sets the cursor to idx as given and closes the
grid overlay. No clamping is performed. -/
def goToQuestion (idx : Nat) (s : ExamState) : ExamState :=
  { s with currentIndex := idx, showGrid := false }

/-- nextQuestion (line 64): advances the cursor only below the last
position. -/
def nextQuestion (s : ExamState) : ExamState :=
  if s.currentIndex < s.examQuestions.length - 1 then
    { s with currentIndex := s.currentIndex + 1 }
  else s

/-- prevQuestion (line 65): moves the cursor back only above zero. -/
def prevQuestion (s : ExamState) : ExamState :=
  if 0 < s.currentIndex then { s with currentIndex := s.currentIndex - 1 }
  else s

/-- start (lines 48-57): commits the shuffled pool truncated to
EXAM_QUESTIONS, resets answers, cursor, elapsed and grid, records the start
timestamp and enters the exam phase. The saved log is untouched. -/
def startOp (shuffled : List Question) (now : Nat) (s : ExamState) : ExamState :=
  { examQuestions := shuffled.take EXAM_QUESTIONS
    currentIndex := 0
    answers := []
    phase := Phase.exam
    startTime := now
    elapsed := 0
    showGrid := false
    saved := s.saved }

/-- finishExam (lines 67-82) with the outcome of the awaited saveQuizResult
made explicit: when the call succeeds the result is appended to the log and
setPhase(result) runs; when the call rejects, the await throws out of the
async function and the setPhase(result) statement after it never executes,
leaving the state as it was. -/
def finishExamWith (saveOk : Bool) (now : Nat) (s : ExamState) : ExamState :=
  if saveOk then
    { s with
      saved := mkQuizResult s.examQuestions s.answers s.startTime now :: s.saved
      phase := Phase.result }
  else s

/-- finishExam on the success path of the persistence call. -/
def finishOp (now : Nat) (s : ExamState) : ExamState :=
  finishExamWith true now s

/-- One firing of the interval callback (lines 38-42): recompute elapsed
from the wall clock, then force submission when the budget is reached. Time
is in seconds. -/
def tickOp (now : Nat) (s : ExamState) : ExamState :=
  if EXAM_TIME ≤ now - s.startTime then
    finishOp now { s with elapsed := now - s.startTime }
  else { s with elapsed := now - s.startTime }

/-- What the component renders, by the early-return chain of the source:
the terminal empty-state when both the committed questions and the pool are
empty (line 88), otherwise the view of the current phase, with the exam
phase rendering null when the cursor is out of range (line 292). -/
inductive View
  | emptyV
  | introV
  | examV
  | nullV
  | resultV
  | reviewV
deriving DecidableEq

/-- Render function of the component (the ordered early returns at lines
88, 97, 152, 233, 291-292). -/
def renderView (pool : List Question) (s : ExamState) : View :=
  if s.examQuestions.isEmpty && pool.isEmpty then View.emptyV
  else
    match s.phase with
    | Phase.intro => View.introV
    | Phase.result => View.resultV
    | Phase.review => View.reviewV
    | Phase.exam =>
        if s.currentIndex < s.examQuestions.length then View.examV
        else View.nullV

/-- The interactions the host can trigger: each button of a rendered view,
plus the interval tick which fires while the phase is exam. The start event
carries the reordering the comparator shuffle produced and the clock
reading; tick and submit carry the clock reading. -/
inductive UIEvent
  | start (shuffled : List Question) (now : Nat)
  | answer (v : Bool)
  | goTo (idx : Nat)
  | next
  | prev
  | toggleGrid
  | tick (now : Nat)
  | submit (now : Nat)
  | toReview
  | backToResult
deriving DecidableEq

/-- One step of the controller: an interaction has an effect only where the
source renders the corresponding control (start on the intro card and the
result page restart button, answer/navigation/submit controls on the exam
view, review toggles on the result and review pages), and the interval
callback only fires while the phase is exam (lines 35-46). The
start event applies only a reordering of the pool, since a JS sort returns
a permutation of its input whatever the comparator does. -/
def uiStep (pool : List Question) (s : ExamState) (e : UIEvent) : ExamState :=
  match e with
  | UIEvent.start shuffled now =>
      if (renderView pool s = View.introV ∨ renderView pool s = View.resultV)
          ∧ shuffled.Perm pool then
        startOp shuffled now s
      else s
  | UIEvent.answer v =>
      if renderView pool s = View.examV then handleAnswer v s else s
  | UIEvent.goTo idx =>
      if renderView pool s = View.examV ∧ s.showGrid = true then
        goToQuestion idx s
      else s
  | UIEvent.next =>
      if renderView pool s = View.examV then nextQuestion s else s
  | UIEvent.prev =>
      if renderView pool s = View.examV then prevQuestion s else s
  | UIEvent.toggleGrid =>
      if renderView pool s = View.examV then { s with showGrid := !s.showGrid }
      else s
  | UIEvent.tick now =>
      if s.phase = Phase.exam then tickOp now s else s
  | UIEvent.submit now =>
      if renderView pool s = View.examV then finishOp now s else s
  | UIEvent.toReview =>
      if renderView pool s = View.resultV then { s with phase := Phase.review }
      else s
  | UIEvent.backToResult =>
      if renderView pool s = View.reviewV then { s with phase := Phase.result }
      else s

/-- Initial component state (lines 14-20): no committed questions, cursor
zero, empty answers, intro phase. -/
def initState : ExamState :=
  { examQuestions := []
    currentIndex := 0
    answers := []
    phase := Phase.intro
    startTime := 0
    elapsed := 0
    showGrid := false
    saved := [] }

/-- Running the controller over a sequence of interactions. -/
def runUI (pool : List Question) (evts : List UIEvent) : ExamState :=
  evts.foldl (uiStep pool) initState

/-- A state rendering the exam view is in the exam phase. -/
theorem renderView_examV_phase {pool : List Question} {s : ExamState}
    (h : renderView pool s = View.examV) : s.phase = Phase.exam := by
  rw [renderView] at h
  split at h
  · exact absurd h (by decide)
  · cases hp : s.phase
    · rw [hp] at h
      simp at h
    · rfl
    · rw [hp] at h
      simp at h
    · rw [hp] at h
      simp at h

/-! ### Step equations, one per interaction -/

theorem uiStep_start (pool : List Question) (s : ExamState) (shuffled : List Question) (now : Nat) :
    uiStep pool s (UIEvent.start shuffled now)
    = if (renderView pool s = View.introV ∨ renderView pool s = View.resultV)
          ∧ shuffled.Perm pool then startOp shuffled now s else s := rfl

theorem uiStep_answer (pool : List Question) (s : ExamState) (v : Bool) :
    uiStep pool s (UIEvent.answer v)
    = if renderView pool s = View.examV then handleAnswer v s else s := rfl

theorem uiStep_goTo (pool : List Question) (s : ExamState) (idx : Nat) :
    uiStep pool s (UIEvent.goTo idx)
    = if renderView pool s = View.examV ∧ s.showGrid = true then goToQuestion idx s else s := rfl

theorem uiStep_next (pool : List Question) (s : ExamState) :
    uiStep pool s UIEvent.next
    = if renderView pool s = View.examV then nextQuestion s else s := rfl

theorem uiStep_prev (pool : List Question) (s : ExamState) :
    uiStep pool s UIEvent.prev
    = if renderView pool s = View.examV then prevQuestion s else s := rfl

theorem uiStep_toggleGrid (pool : List Question) (s : ExamState) :
    uiStep pool s UIEvent.toggleGrid
    = if renderView pool s = View.examV then { s with showGrid := !s.showGrid } else s := rfl

theorem uiStep_tick (pool : List Question) (s : ExamState) (now : Nat) :
    uiStep pool s (UIEvent.tick now)
    = if s.phase = Phase.exam then tickOp now s else s := rfl

theorem uiStep_submit (pool : List Question) (s : ExamState) (now : Nat) :
    uiStep pool s (UIEvent.submit now)
    = if renderView pool s = View.examV then finishOp now s else s := rfl

theorem uiStep_toReview (pool : List Question) (s : ExamState) :
    uiStep pool s UIEvent.toReview
    = if renderView pool s = View.resultV then { s with phase := Phase.review } else s := rfl

theorem uiStep_backToResult (pool : List Question) (s : ExamState) :
    uiStep pool s UIEvent.backToResult
    = if renderView pool s = View.reviewV then { s with phase := Phase.result } else s := rfl

/-- Any step either leaves the persisted log unchanged, or it runs
finishExam: it starts in the exam phase, lands in the result phase and the
log grows by exactly one entry. -/
theorem uiStep_saved_dichotomy (pool : List Question) (s : ExamState) (e : UIEvent) :
    (uiStep pool s e).saved = s.saved
    ∨ (s.phase = Phase.exam ∧ (uiStep pool s e).phase = Phase.result
        ∧ (uiStep pool s e).saved.length = s.saved.length + 1) := by
  cases e with
  | start shuffled now =>
      left
      rw [uiStep_start]
      split <;> rfl
  | answer v =>
      left
      rw [uiStep_answer]
      split <;> rfl
  | goTo idx =>
      left
      rw [uiStep_goTo]
      split <;> rfl
  | next =>
      left
      rw [uiStep_next]
      split
      · rw [nextQuestion]
        split <;> rfl
      · rfl
  | prev =>
      left
      rw [uiStep_prev]
      split
      · rw [prevQuestion]
        split <;> rfl
      · rfl
  | toggleGrid =>
      left
      rw [uiStep_toggleGrid]
      split <;> rfl
  | toReview =>
      left
      rw [uiStep_toReview]
      split <;> rfl
  | backToResult =>
      left
      rw [uiStep_backToResult]
      split <;> rfl
  | tick now =>
      rw [uiStep_tick]
      by_cases hp : s.phase = Phase.exam
      · rw [if_pos hp, tickOp]
        by_cases ht : EXAM_TIME ≤ now - s.startTime
        · rw [if_pos ht]
          right
          exact ⟨hp, rfl, rfl⟩
        · rw [if_neg ht]
          left
          rfl
      · rw [if_neg hp]
        left
        rfl
  | submit now =>
      rw [uiStep_submit]
      by_cases hv : renderView pool s = View.examV
      · rw [if_pos hv]
        right
        exact ⟨renderView_examV_phase hv, rfl, rfl⟩
      · rw [if_neg hv]
        left
        rfl

/-! ## C5: single submission per exam phase -/

/-- C5: a persisted QuizResult appears only on a step that leaves the exam
phase for the result phase, growing the log by exactly one entry (so a
finished session cannot submit again until a restart begins a new exam
phase); and a tick whose wall-clock delta has reached the 1800-second
budget transitions the session to result, logging exactly the result
computed from the answers existing at that moment. -/
theorem C5_single_submission : ∀ (pool : List Question) (s : ExamState) (e : UIEvent),
    ((uiStep pool s e).saved ≠ s.saved →
      s.phase = Phase.exam ∧ (uiStep pool s e).phase = Phase.result
        ∧ (uiStep pool s e).saved.length = s.saved.length + 1)
  ∧ (∀ now : Nat, s.phase = Phase.exam → EXAM_TIME ≤ now - s.startTime →
      (uiStep pool s (UIEvent.tick now)).phase = Phase.result
        ∧ (uiStep pool s (UIEvent.tick now)).saved
            = mkQuizResult s.examQuestions s.answers s.startTime now :: s.saved) := by
  intro pool s e
  constructor
  · intro hch
    rcases uiStep_saved_dichotomy pool s e with hsame | hgood
    · exact absurd hsame hch
    · exact hgood
  · intro now hp ht
    constructor
    · rw [uiStep_tick, if_pos hp, tickOp, if_pos ht]
      rfl
    · rw [uiStep_tick, if_pos hp, tickOp, if_pos ht]
      rfl

/-- An exam-phase session: qs5 committed, position 0 answered correctly,
the rest unanswered. -/
def stExam : ExamState :=
  { examQuestions := qs5
    currentIndex := 0
    answers := [(0, true)]
    phase := Phase.exam
    startTime := 0
    elapsed := 1799
    showGrid := false
    saved := [] }

/-- Witness for C5: the tick at 1800 seconds moves stExam to the result
phase with exactly one logged result. -/
theorem C5_single_submission_witness :
    (uiStep qs5 stExam (UIEvent.tick 1800)).phase = Phase.result
  ∧ (uiStep qs5 stExam (UIEvent.tick 1800)).saved.length = 1 := by
  have h := (C5_single_submission qs5 stExam (UIEvent.tick 1800)).2 1800 rfl (by decide)
  refine ⟨h.1, ?_⟩
  rw [h.2]
  rfl

/-! ## C6: persistence failure on finish -/

/-- C6: when the awaited saveQuizResult rejects, the throw skips the
setPhase(result) statement after the await, so the session stays in the
exam phase and no result summary phase is entered, contradicting the
requirement that the result phase proceed regardless. Evaluated at the
failing input stExam. -/
theorem C6_persistence_failure_blocks_result :
    finishExamWith false 1780 stExam = stExam
  ∧ (finishExamWith false 1780 stExam).phase = Phase.exam
  ∧ (finishExamWith false 1780 stExam).saved = [] :=
  ⟨rfl, rfl, rfl⟩

/-! ## C7: empty pool never enters the exam -/

/-- With an empty pool the component renders the terminal empty-state, so
no interaction has any effect on the initial state. -/
theorem uiStep_initState_empty (e : UIEvent) : uiStep [] initState e = initState := by
  have hv : renderView [] initState = View.emptyV := rfl
  cases e with
  | start shuffled now =>
      rw [uiStep_start]
      split
      · next hcond =>
          exfalso
          rcases hcond with ⟨hor, _⟩
          rcases hor with h1 | h1 <;> rw [hv] at h1 <;> exact absurd h1 (by decide)
      · rfl
  | answer v =>
      rw [uiStep_answer, if_neg (by decide)]
  | goTo idx =>
      rw [uiStep_goTo, if_neg (by decide)]
  | next =>
      rw [uiStep_next, if_neg (by decide)]
  | prev =>
      rw [uiStep_prev, if_neg (by decide)]
  | toggleGrid =>
      rw [uiStep_toggleGrid, if_neg (by decide)]
  | tick now =>
      rw [uiStep_tick, if_neg (by decide)]
  | submit now =>
      rw [uiStep_submit, if_neg (by decide)]
  | toReview =>
      rw [uiStep_toReview, if_neg (by decide)]
  | backToResult =>
      rw [uiStep_backToResult, if_neg (by decide)]

/-- C7: with an empty question pool, every sequence of host interactions
leaves the controller in the intro phase (in particular it never enters the
exam phase, since start is unreachable) and the rendered view is the
terminal empty-state. -/
theorem C7_empty_pool_never_exam : ∀ evts : List UIEvent,
    (runUI [] evts).phase = Phase.intro
  ∧ renderView [] (runUI [] evts) = View.emptyV := by
  have hrun : ∀ evts : List UIEvent, runUI [] evts = initState := by
    intro evts
    rw [runUI]
    induction evts with
    | nil => rfl
    | cons e t ih =>
        rw [List.foldl_cons, uiStep_initState_empty]
        exact ih
  intro evts
  rw [hrun]
  exact ⟨rfl, rfl⟩

/-! ## C8: navigation does not clamp -/

/-- A 2-question exam-phase session with the navigation grid open. -/
def stTwo : ExamState :=
  { examQuestions := [mkQ 0 true, mkQ 1 false]
    currentIndex := 0
    answers := [(0, true)]
    phase := Phase.exam
    startTime := 0
    elapsed := 5
    showGrid := true
    saved := [] }

/-- Counterexample to C8 as stated: goToQuestion performs no clamping, so
navigating to index 7 in a 2-question session sets the cursor to 7, not to
the clamped value 1. -/
theorem C8_counterexample :
    (goToQuestion 7 stTwo).currentIndex ≠ min 7 (stTwo.examQuestions.length - 1) := by
  decide

/-- C8 amended: goToQuestion sets the display cursor to exactly the given
index (no clamping), leaves the answer map, timer fields and phase
unchanged, and an out-of-range index never errors: in the exam phase the
component then renders the null view. -/
theorem C8_navigate_unclamped : ∀ (s : ExamState) (idx : Nat) (pool : List Question),
    (goToQuestion idx s).currentIndex = idx
  ∧ (goToQuestion idx s).answers = s.answers
  ∧ (goToQuestion idx s).elapsed = s.elapsed
  ∧ (goToQuestion idx s).startTime = s.startTime
  ∧ (goToQuestion idx s).phase = s.phase
  ∧ (s.phase = Phase.exam → s.examQuestions.isEmpty = false →
      s.examQuestions.length ≤ idx →
      renderView pool (goToQuestion idx s) = View.nullV) := by
  intro s idx pool
  refine ⟨rfl, rfl, rfl, rfl, rfl, ?_⟩
  intro hp hne hlen
  have h1 : (goToQuestion idx s).phase = s.phase := rfl
  have h2 : (goToQuestion idx s).examQuestions = s.examQuestions := rfl
  have h3 : (goToQuestion idx s).currentIndex = idx := rfl
  rw [renderView, h1, h2, h3, hp, hne, Bool.false_and, if_neg (by decide)]
  show (if idx < s.examQuestions.length then View.examV else View.nullV) = View.nullV
  rw [if_neg (Nat.not_lt.mpr hlen)]

/-- Witness for C8 amended at stTwo and index 7: the cursor lands on 7 and
the exam phase renders the null view. -/
theorem C8_navigate_unclamped_witness :
    (goToQuestion 7 stTwo).currentIndex = 7
  ∧ renderView [] (goToQuestion 7 stTwo) = View.nullV :=
  ⟨(C8_navigate_unclamped stTwo 7 []).1,
   (C8_navigate_unclamped stTwo 7 []).2.2.2.2.2 rfl rfl (by decide)⟩

/-! ## C9: review recomputes errors differently from result -/

/-- Answers with only position 0 present (answered correctly for qs5). -/
def ansOne : AnswerMap := [(0, true)]

/-- C9: the review phase is not a faithful read view of the computed
result when questions are unanswered: for the 5-question session with one
correct answer and 4 unanswered, the result phase computes errors = 4 and
the fail verdict, while the review header counts only answered entries,
shows totalErrors = 0 and the pass style. -/
theorem C9_review_result_mismatch :
    resultErrors qs5 ansOne = 4
  ∧ examPassed qs5 ansOne = false
  ∧ reviewTotalErrors qs5 ansOne = 0
  ∧ reviewShowsPass qs5 ansOne = true := by
  decide

/-! ## C3: question sampling

start (line 49) builds the session sequence as
[...questions].sort(() => Math.random() - 0.5).slice(0, EXAM_QUESTIONS).
Whatever the comparator returns, a JS sort yields a permutation of its
input, so the committed sequence is the 30-element prefix of some
reordering of the pool. The comparator itself is driven by Math.random,
i.e. by finitely many fair random bits, and the engine consults it a
bounded number of times per sort, so the whole shuffle is a deterministic
function of finitely many coin flips. -/

/-- The session sequence committed by start, as a function of the
reordering the comparator sort produced. -/
def startQuestions (shuffled : List Question) : List Question :=
  shuffled.take EXAM_QUESTIONS

/-- Amended C3: for a pool with pairwise-distinct identifiers, the
committed sequence has length exactly min(30, pool size) and carries no
duplicate question identifiers, for every reordering the shuffle can
produce. -/
theorem C3_sample_shape : ∀ pool shuffled : List Question,
    shuffled.Perm pool → (pool.map Question.id).Nodup →
    (startQuestions shuffled).length = min EXAM_QUESTIONS pool.length
  ∧ ((startQuestions shuffled).map Question.id).Nodup := by
  intro pool shuffled hperm hnd
  constructor
  · rw [startQuestions, List.length_take, hperm.length_eq]
  · have hsh : (shuffled.map Question.id).Nodup :=
      (hperm.map Question.id).nodup_iff.mpr hnd
    have hsub : List.Sublist ((startQuestions shuffled).map Question.id) (shuffled.map Question.id) :=
      (List.take_sublist EXAM_QUESTIONS shuffled).map Question.id
    exact List.Nodup.sublist hsub hsh

/-- A pool of 32 questions with distinct identifiers. -/
def pool32 : List Question := (List.range 32).map (fun n => mkQ n true)

/-- Witness for C3 amended: the reversed pool is a reordering of pool32,
and the committed sequence has the 30 = min(30, 32) questions with no
duplicate identifiers. -/
theorem C3_sample_shape_witness :
    (startQuestions pool32.reverse).length = min EXAM_QUESTIONS pool32.length
  ∧ ((startQuestions pool32.reverse).map Question.id).Nodup :=
  C3_sample_shape pool32 pool32.reverse (List.reverse_perm pool32) (by decide)

/-- Orderings of a 3-question pool are the permutations of Fin 3; equality
of such permutations is decided pointwise. -/
instance : DecidableEq (Equiv.Perm (Fin 3)) := fun f g =>
  decidable_of_iff (∀ i, f i = g i) ⟨fun h => Equiv.ext h, fun h i => by rw [h]⟩

/-- Model of the comparator shuffle on a pool of 3 distinct questions: a
deterministic procedure that consumes m fair coin flips (the random bits
behind the Math.random calls of the comparator) and outputs the resulting
ordering. coinOutcomes counts the coin vectors mapped to a given
ordering, i.e. its probability times 2 to the m. -/
def coinOutcomes (m : Nat) (alg : (Fin m → Bool) → Equiv.Perm (Fin 3))
    (σ : Equiv.Perm (Fin 3)) : Nat :=
  (Finset.univ.filter (fun v => alg v = σ)).card

/-- The shuffle samples the 3-question pool uniformly when every ordering
receives the same number of coin outcomes. -/
def uniformShuffle (m : Nat) (alg : (Fin m → Bool) → Equiv.Perm (Fin 3)) : Prop :=
  ∀ σ τ : Equiv.Perm (Fin 3), coinOutcomes m alg σ = coinOutcomes m alg τ

/-- Counterexample to C3 as stated: already on a concrete pool of 3
distinct questions, no coin-driven shuffle procedure — in particular not
the sort with comparator Math.random() - 0.5 — samples the orderings
uniformly at random: each ordering would need probability 1/6, but every
outcome probability is a multiple of 1 over 2 to the m, and 3 never
divides 2 to the m. -/
theorem C3_counterexample :
    ¬ ∃ (m : Nat) (alg : (Fin m → Bool) → Equiv.Perm (Fin 3)), uniformShuffle m alg := by
  rintro ⟨m, alg, h⟩
  have hto : ∀ v ∈ (Finset.univ : Finset (Fin m → Bool)),
      alg v ∈ (Finset.univ : Finset (Equiv.Perm (Fin 3))) := fun v _ => Finset.mem_univ _
  have hcard := Finset.card_eq_sum_card_fiberwise hto
  have hconst : ∀ σ ∈ (Finset.univ : Finset (Equiv.Perm (Fin 3))),
      (Finset.univ.filter (fun v => alg v = σ)).card = coinOutcomes m alg 1 :=
    fun σ _ => h σ 1
  rw [Finset.sum_congr rfl hconst, Finset.sum_const, smul_eq_mul, Finset.card_univ,
    Finset.card_univ] at hcard
  have h2 : Fintype.card (Fin m → Bool) = 2 ^ m := by
    simp [Fintype.card_fun]
  have h6 : Fintype.card (Equiv.Perm (Fin 3)) = 6 := by
    simp [Fintype.card_perm, Fintype.card_fin]
    decide
  rw [h2, h6] at hcard
  have h3 : (3 : Nat) ∣ 2 ^ m := ⟨2 * coinOutcomes m alg 1, by omega⟩
  have h32 := Nat.Prime.dvd_of_dvd_pow Nat.prime_three h3
  exact absurd h32 (by decide)

end Patente
